import Mathlib

/-!
Verification of the crawl-extract-persist pipeline of the indeed-scraper
repository (`notebooks/utils/common.py`, `notebooks/utils/indeed.py`).
The Python code is shallowly embedded: BeautifulSoup documents become a
concrete tree type, the Selenium driver becomes an explicit state driven by
a stubbed environment, and every effect the claims mention (navigations,
sleeps, file writes, publishes) is recorded in an explicit trace.
-/

namespace IndeedScraper

/-- A node of a parsed HTML document, modelling the bs4 parse tree:
either a text node or an element with a tag name, attributes and children. -/
inductive Node where
  | text (s : String) : Node
  | elem (name : String) (attrs : List (String × String)) (children : List Node) : Node

/-- All strict descendants of a node in document (preorder) order,
as traversed by bs4 `find` / `select`. -/
def Node.descendants : Node → List Node
  | .text _ => []
  | .elem _ _ cs => go cs
where go : List Node → List Node
  | [] => []
  | c :: rest => c :: c.descendants ++ go rest

/-- Tag name of an element; text nodes have none (bs4 `find(name)` never
matches a NavigableString). -/
def Node.tagName : Node → Option String
  | .text _ => none
  | .elem n _ _ => some n

/-- `Tag.get(key)`: the attribute value, or `None` when absent. -/
def Node.getAttr : Node → String → Option String
  | .text _, _ => none
  | .elem _ attrs _, k => (attrs.find? (fun p => p.1 = k)).map (fun p => p.2)

/-- `Tag.text`: concatenation of every string in the subtree. -/
def Node.textContent : Node → String
  | .text s => s
  | .elem _ _ cs => go cs
where go : List Node → String
  | [] => ""
  | c :: rest => c.textContent ++ go rest

/-! ### Character-list string operations

Lean's byte-position-based `String` functions (`startsWith`, `takeWhile`,
`splitOn`, `trim`, …) do not evaluate inside the kernel, so the string
operations the Python code relies on are defined here over `String.data`. -/

/-- `s.startswith(p)`. -/
def strStartsWith (s p : String) : Bool := p.data.isPrefixOf s.data

/-- Drop the first `n` characters. -/
def strDrop (s : String) (n : Nat) : String := String.mk (s.data.drop n)

/-- Longest prefix of characters satisfying `f`. -/
def strTakeWhile (s : String) (f : Char → Bool) : String :=
  String.mk (s.data.takeWhile f)

/-- Remainder after the longest prefix satisfying `f`. -/
def strDropWhile (s : String) (f : Char → Bool) : String :=
  String.mk (s.data.dropWhile f)

/-- Python `str.strip()`: remove leading and trailing whitespace. -/
def strip (s : String) : String :=
  String.mk
    (((s.data.dropWhile Char.isWhitespace).reverse.dropWhile Char.isWhitespace).reverse)

/-- Split a character list at every occurrence of `sep`. -/
def splitCharsOn (sep : Char) : List Char → List (List Char)
  | [] => [[]]
  | c :: rest =>
    let r := splitCharsOn sep rest
    if c = sep then [] :: r
    else
      match r with
      | [] => [[c]]
      | g :: gs => (c :: g) :: gs

/-- Split a string at every occurrence of the character `sep`. -/
def strSplitOn (sep : Char) (s : String) : List String :=
  (splitCharsOn sep s.data).map String.mk

/-- Whether the string contains the character `c`. -/
def strContains (s : String) (c : Char) : Bool := s.data.contains c

/-- Python `str.lower()`, for ASCII strings. -/
def strToLower (s : String) : String := String.mk (s.data.map Char.toLower)

/-- bs4 `tag.find(name)`: the first descendant element with the given tag
name, in document order, or `None`. -/
def Node.find (root : Node) (name : String) : Option Node :=
  (root.descendants.filter (fun n => n.tagName == some name)).head?

/-- Word-wise match of bs4's `class_=` filter: the `class` attribute,
treated as a whitespace-separated list, contains the value. -/
def Node.hasClass (n : Node) (cls : String) : Bool :=
  match n.getAttr "class" with
  | none => false
  | some c => (strSplitOn ' ' c).contains cls

/-- bs4 `soup.find("a", class_=cls)`: first descendant anchor whose class
list contains `cls`. -/
def Node.findWithClass (root : Node) (name cls : String) : Option Node :=
  (root.descendants.filter (fun n => n.tagName == some name && n.hasClass cls)).head?

/-- `soup.select('div[role="listitem"]')`: every descendant `div` whose
`role` attribute equals `listitem`, in document order. -/
def Node.selectListItems (root : Node) : List Node :=
  root.descendants.filter
    (fun n => n.tagName == some "div" && n.getAttr "role" == some "listitem")

/-- Truthiness of a Python `Optional[str]` value: `None` and `""` are falsy,
any other string is truthy. -/
def strTruthy : Option String → Bool
  | none => false
  | some s => !(s == "")

/-- A scraped record: an ordered dict from field name to a Python value that
is either a string (`some`) or `None` (`none`), as built by
`ProductExtractor.extract`. -/
abbrev Record := List (String × Option String)

/-- `ProductExtractor.extract_text(item, selector, attr)`.  When the
sub-element is missing, `item.find(selector) or ""` yields the string `""`
(a bs4 Tag is always truthy: `Tag.__bool__` returns `True`), and the
subsequent `"".get(attr)` / `"".text` raises `AttributeError`, which the
handler converts to `""`.  When the sub-element is present, `element.get(attr)`
returns the attribute value or Python `None`, and without `attr` the result
is `element.text.strip()`. -/
def extract_text (item : Node) (selector : String) (attr : Option String) :
    Option String :=
  match item.find selector with
  | none => some ""
  | some element =>
    match attr with
    | some a => element.getAttr a
    | none => some (strip element.textContent)

/-- `ProductExtractor.extract_field(item, field_type)` with the extractor's
`base_url`.  Field-to-selector map: title ↦ `h2`, image ↦ `img`, link ↦ `a`;
attribute map: image ↦ `src`, link ↦ `href` (title has none).  A truthy
extracted link is prefixed with `base_url` by string concatenation. -/
def extract_field (base_url : String) (item : Node) (field_type : String) :
    Option String :=
  let selector : Option String :=
    if field_type = "title" then some "h2"
    else if field_type = "image" then some "img"
    else if field_type = "link" then some "a"
    else none
  let attr : Option String :=
    if field_type = "image" then some "src"
    else if field_type = "link" then some "href"
    else none
  match selector with
  | none => some ""
  | some sel =>
    let extracted := extract_text item sel attr
    if field_type = "link" && strTruthy extracted then
      some (base_url ++ extracted.getD "")
    else extracted

/-- `ProductExtractor.extract()`: `None` soup (the only falsy soup, since a
bs4 Tag is always truthy) yields `[]`; otherwise every list item with a
truthy title becomes a record `{Title, Image, Link}`, and items with a falsy
title are skipped. -/
def ProductExtractor.extract (soup : Option Node) (base_url : String) :
    List Record :=
  match soup with
  | none => []
  | some s =>
    s.selectListItems.filterMap (fun item =>
      let title := extract_field base_url item "title"
      if strTruthy title then
        some [("Title", title),
              ("Image", extract_field base_url item "image"),
              ("Link", extract_field base_url item "link")]
      else none)

/-! ### `urllib.parse.urljoin`, modelled for absolute `http(s)` base URLs

The program only ever joins against `"https://www.amazon.com"`.  The model
covers the cases that can reach it: empty href, absolute href,
scheme-relative (`//…`), root-relative (`/…`), query-only (`?…`) and plain
relative hrefs (without `..` segments or fragments). -/

/-- Scheme of an absolute http(s) URL. -/
def schemeOf (u : String) : String :=
  if strStartsWith u "https://" then "https" else "http"

/-- The URL with its `scheme://` prefix removed. -/
def afterScheme (u : String) : String :=
  if strStartsWith u "https://" then strDrop u 8
  else if strStartsWith u "http://" then strDrop u 7
  else u

/-- `scheme://host` of an absolute URL: authority ends at `/`, `?` or `#`. -/
def origin (base : String) : String :=
  schemeOf base ++ "://" ++
    strTakeWhile (afterScheme base) (fun c => c ≠ '/' && c ≠ '?' && c ≠ '#')

/-- The path component of an absolute URL (no authority, query or fragment). -/
def pathOf (base : String) : String :=
  strTakeWhile (strDropWhile (afterScheme base) (fun c => c ≠ '/' && c ≠ '?' && c ≠ '#'))
    (fun c => c ≠ '?' && c ≠ '#')

/-- Directory of a path: everything up to and including the last `/`
(`"/"` when the path has no directory part). -/
def dirOf (p : String) : String :=
  let upToLastSlash := (p.data.reverse.dropWhile (fun c => c ≠ '/')).reverse
  if upToLastSlash = [] then "/" else String.mk upToLastSlash

/-- `urllib.parse.urljoin(base, url)` on the cases described above. -/
def urljoin (base url : String) : String :=
  if url = "" then base
  else if strStartsWith url "http://" || strStartsWith url "https://" then url
  else if strStartsWith url "//" then schemeOf base ++ ":" ++ url
  else if strStartsWith url "/" then origin base ++ url
  else if strStartsWith url "?" then origin base ++ pathOf base ++ url
  else origin base ++ dirOf (pathOf base) ++ url

/-- `common.pagination(soup, base_url)`: find the anchor with class
`s-pagination-next`; absent anchor or falsy href yields `None`; otherwise the
href is resolved against `base_url` with `urljoin`.  Passing `None` for the
soup raises `AttributeError`, which the handler converts to `None`. -/
def pagination (soup : Option Node) (base_url : String) : Option String :=
  match soup with
  | none => none
  | some s =>
    match s.findWithClass "a" "s-pagination-next" with
    | none => none
    | some next_page =>
      match next_page.getAttr "href" with
      | none => none
      | some h => if h = "" then none else some (urljoin base_url h)

/-! ### Exceptions, markup inputs and `soup_maker` -/

/-- The exception classes the embedded code raises or catches. -/
inductive PyExc where
  | typeError
  | featureNotFound
  | timeoutException
  | webDriverException
deriving DecidableEq, Repr

/-- An input handed to `BeautifulSoup`: either markup that parses to a
document, or a value on which the `BeautifulSoup` constructor raises (e.g.
`BeautifulSoup(None, "lxml")` raises `TypeError`). -/
inductive Markup where
  | html (doc : Node)
  | notMarkup (e : PyExc)

/-- The exceptions actually caught by `soup_maker`'s handler.  The source
writes `except (FeatureNotFound or TypeError)`; in Python the expression
`FeatureNotFound or TypeError` evaluates to `FeatureNotFound` alone, so
`TypeError` is NOT caught. -/
def caught_by_soup_maker : PyExc → Bool
  | .featureNotFound => true
  | _ => false

/-- `common.soup_maker(response)`: parse the response, returning the soup on
success and `None` when the raised exception is caught; an uncaught
exception propagates. -/
def soup_maker : Markup → Except PyExc (Option Node)
  | .html d => .ok (some d)
  | .notMarkup e => if caught_by_soup_maker e then .ok none else .error e

/-- The document `BeautifulSoup("", "lxml")` produces: an empty soup with no
elements. -/
def emptyDoc : Node := .elem "[document]" [] []

/-! ### The Selenium driver, stubbed as an explicit environment

`driver.get(url)` is modelled by looking the URL up in a stub table: the
page either loads some markup, or the call raises `TimeoutException` /
`WebDriverException`.  `driver.page_source` returns the page most recently
loaded, or raises `WebDriverException` when the session is dead. -/

/-- Behavior of `driver.get` for one URL. -/
inductive GetResp where
  | loads (m : Markup)
  | timeout
  | wdError

/-- Stubbed world: per-URL navigation behavior, plus whether the session is
dead (reading `page_source` raises).  A URL absent from the stub table
behaves as a navigation timeout. -/
structure Env where
  web : List (String × GetResp)
  deadSession : Bool

/-- Response of the stubbed web to `driver.get url`. -/
def Env.resp (env : Env) (url : String) : GetResp :=
  (((env.web.find? (fun p => p.1 = url)).map (fun p => p.2)).getD .timeout)

/-- Driver state: the markup `driver.page_source` currently returns. -/
structure DriverState where
  current : Markup

/-- One navigation event: a call of `driver.get url`. -/
inductive Event where
  | get (url : String)
deriving DecidableEq, Repr

/-- `driver.get(url)`: loads the URL's markup into the driver, or raises. -/
def driver_get (env : Env) (d : DriverState) (url : String) :
    Except PyExc DriverState :=
  match env.resp url with
  | .loads m => .ok { current := m }
  | .timeout => .error .timeoutException
  | .wdError => .error .webDriverException

/-- `driver.page_source`: the current markup, or a raise on a dead session. -/
def page_source (env : Env) (d : DriverState) : Except PyExc Markup :=
  if env.deadSession then .error .webDriverException else .ok d.current

/-- `common.load_and_scroll(driver, url)`: runs `loader` (set the page-load
timeout, `driver.get(url)`, sleep, scroll) and catches `TimeoutException` and
`WebDriverException`, only logging them.  On a caught failure the driver
keeps its previous page. -/
def load_and_scroll (env : Env) (d : DriverState) (url : String) :
    DriverState × List Event :=
  match driver_get env d url with
  | .ok d' => (d', [.get url])
  | .error _ => (d, [.get url])

/-! ### Search URLs -/

/-- Uppercase hex digit of a number below 16. -/
def hexDigit (n : Nat) : Char :=
  if n < 10 then Char.ofNat (48 + n) else Char.ofNat (55 + n)

/-- `urllib.parse.quote_plus` for one ASCII character: keep alphanumerics
and `_.-~`, map space to `+`, percent-encode the rest. -/
def quotePlusChar (c : Char) : List Char :=
  if c = ' ' then ['+']
  else if c.isAlphanum || c = '_' || c = '.' || c = '-' || c = '~' then [c]
  else ['%', hexDigit (c.toNat / 16), hexDigit (c.toNat % 16)]

/-- `urllib.parse.quote_plus`, modelled for ASCII keywords. -/
def quote_plus (s : String) : String :=
  String.mk (s.data.flatMap quotePlusChar)

/-- `AmazonScraper.url`. -/
def amazonBase : String := "https://www.amazon.com"

/-- `AmazonScraper.get_search_url(keyword)`. -/
def get_search_url (keyword : String) : String :=
  amazonBase ++ "/s?k=" ++ quote_plus keyword

/-! ### The crawl controller -/

/-- `AmazonScraper.scrape_search_results(keyword)`: navigate to the search
URL with `load_and_scroll` (which swallows navigation failures) and return
`driver.page_source`.  The surrounding `except Exception` turns a raising
`page_source` into the return value `""`, which parses to an empty soup. -/
def scrape_search_results (env : Env) (d : DriverState) (keyword : String) :
    Markup × DriverState × List Event :=
  let url := get_search_url keyword
  let (d1, evs) := load_and_scroll env d url
  match page_source env d1 with
  | .ok m => (m, d1, evs)
  | .error _ => (Markup.html emptyDoc, d1, evs)

/-- The `while soup and page < max_pages` loop of
`AmazonScraper.scrape_all_pages`, with `fuel = max_pages - page` (so the
condition `page < max_pages` is `0 < fuel`).  `extractorSoup` is the soup
captured by the `ProductExtractor` constructed before the loop: the source
never updates it, so every iteration extracts from it, while `soup` — the
loop variable used for pagination and the loop condition — is re-parsed from
each newly loaded page.  `driver.get`, `page_source` and `soup_maker` run
outside any handler here, so their exceptions propagate. -/
def crawl_loop (env : Env) (extractorSoup soup : Option Node)
    (d : DriverState) (fuel : Nat) (results : List Record) :
    List Event × Except PyExc (List Record) :=
  match fuel with
  | 0 => ([], .ok results)
  | fuel' + 1 =>
    match soup with
    | none => ([], .ok results)
    | some s =>
      let results' := results ++ ProductExtractor.extract extractorSoup amazonBase
      match pagination (some s) amazonBase with
      | none => ([], .ok results')
      | some nextUrl =>
        match driver_get env d nextUrl with
        | .error e => ([.get nextUrl], .error e)
        | .ok d' =>
          match page_source env d' with
          | .error e => ([.get nextUrl], .error e)
          | .ok resp =>
            match soup_maker resp with
            | .error e => ([.get nextUrl], .error e)
            | .ok soup' =>
              let (evs, r) := crawl_loop env extractorSoup soup' d' fuel' results'
              (Event.get nextUrl :: evs, r)

/-- `AmazonScraper.scrape_all_pages(keyword, max_pages)`: load the search
page, parse it, build the `ProductExtractor` once from that first soup, and
run the crawl loop from `page = 0`.  The result is the navigation trace
together with either the accumulated records or the exception that
propagated. -/
def scrape_all_pages (env : Env) (d : DriverState) (keyword : String)
    (max_pages : Nat) : List Event × Except PyExc (List Record) :=
  let (response, d1, evs) := scrape_search_results env d keyword
  match soup_maker response with
  | .error e => (evs, .error e)
  | .ok soup =>
    let (evs2, r) := crawl_loop env soup soup d1 max_pages []
    (evs ++ evs2, r)

/-! ### Sink dispatcher (`common.save_as` and the writers)

The writers' file/database I/O is external; what the claims observe is which
writer or publisher is invoked, recorded as a list of effects. -/

/-- Observable effects of the sink layer. -/
inductive SinkEffect where
  | warnEmptyItems
  | warnNoTarget
  | warnEmptySqlite
  | writeCsv (file : String)
  | writeJson (file : String)
  | writeExcel (file : String)
  | writeSqlite (file : String) (table : String)
  | errorUnsupported (ext : String)
  | publish (url : String)
deriving DecidableEq, Repr

/-- `os.path.splitext(file_name)[1][1:]`: the extension of the path's last
component without its dot, where leading dots of the basename never start an
extension. -/
def splitext_ext (file_name : String) : String :=
  let base := (strSplitOn '/' file_name).getLastD file_name
  let lead := (base.data.takeWhile (fun c => c = '.')).length
  let rest := strDrop base lead
  if strContains rest '.' then (strSplitOn '.' base).getLastD "" else ""

/-- `common.save_to_sqlite(items, db_name, table_name)`: warns and writes
nothing on an empty batch, otherwise creates the table if absent and inserts
every record. -/
def save_to_sqlite (items : List Record) (db_name : String)
    (table_name : String) : List SinkEffect :=
  if items.isEmpty then [.warnEmptySqlite]
  else [.writeSqlite db_name table_name]

/-- `common.save_data_to_file(file_name, items, table_name)`: derive the
format from the lower-cased extension and dispatch to the matching writer;
an unrecognized extension is logged as an error with nothing written. -/
def save_data_to_file (file_name : String) (items : List Record)
    (table_name : String) : List SinkEffect :=
  let file_ext := strToLower (splitext_ext file_name)
  if file_ext = "csv" then [.writeCsv file_name]
  else if file_ext = "json" then [.writeJson file_name]
  else if file_ext = "xlsx" || file_ext = "xls" then [.writeExcel file_name]
  else if file_ext = "sqlite" then save_to_sqlite items file_name table_name
  else [.errorUnsupported file_ext]

/-- `common.post_data_to_api(post_api_url, items)`: delegates to
`post_with_retry` (modelled separately below) and only logs its outcome. -/
def post_data_to_api (post_api_url : String) (items : List Record) :
    List SinkEffect :=
  [.publish post_api_url]

/-- `common.save_as(items, file_name, post_api_url, table_name)`: empty
batches only warn; a truthy API URL delegates exclusively to the publisher;
otherwise a truthy file name goes to the file writer; else a warning. -/
def save_as (items : List Record) (file_name : Option String)
    (post_api_url : Option String) (table_name : String) : List SinkEffect :=
  if items.isEmpty then [.warnEmptyItems]
  else if strTruthy post_api_url then
    post_data_to_api (post_api_url.getD "") items
  else if strTruthy file_name then
    save_data_to_file (file_name.getD "") items table_name
  else [.warnNoTarget]

/-! ### Retrying publisher (`common.post_with_retry`)

The endpoint's behavior is stubbed as a function from the attempt number to
an outcome.  The model returns the final result together with the number of
send attempts performed and the trace of `time.sleep` durations. -/

/-- Outcome of one `requests.post` call: an HTTP response with a status
code, or one of the caught request exceptions. -/
inductive PostOutcome where
  | status (code : Nat)
  | timeoutErr
  | connectionErr
  | requestErr
deriving DecidableEq, Repr

/-- `res.status_code in [200, 201]`; every caught exception counts as a
failed attempt. -/
def attempt_succeeds : PostOutcome → Bool
  | .status c => c == 200 || c == 201
  | _ => false

/-- The `for attempt in range(1, max_retries + 1)` loop of
`post_with_retry`, with `remaining` iterations left.  A success returns
`True` immediately; otherwise `delay` is doubled first when `backoff` is
set, then `time.sleep(delay)` runs — also after the final attempt — and the
loop continues.  Returns (result, send attempts performed, sleep trace). -/
def post_attempts (responses : Nat → PostOutcome) (attempt remaining : Nat)
    (delay : Nat) (backoff : Bool) : Bool × Nat × List Nat :=
  match remaining with
  | 0 => (false, 0, [])
  | r + 1 =>
    if attempt_succeeds (responses attempt) then (true, 1, [])
    else
      let delay' := if backoff then delay * 2 else delay
      let (s, n, waits) := post_attempts responses (attempt + 1) r delay' backoff
      (s, n + 1, delay' :: waits)

/-- `common.post_with_retry(url, data, max_retries, delay, timeout,
backoff)`: run the attempt loop from attempt 1; exhausting all attempts
yields `False`.  All request exceptions are caught inside the loop, so the
function always returns a boolean — no exception escapes. -/
def post_with_retry (url : String) (data : List Record)
    (responses : Nat → PostOutcome) (max_retries delay : Nat)
    (backoff : Bool) : Bool × Nat × List Nat :=
  post_attempts responses 1 max_retries delay backoff

/-! ### Concrete crawl scenarios used by counterexamples and witnesses -/

/-- The product anchor of the first results page's listing item. -/
def anchorAlpha : Node := .elem "a" [("href", "/dp/1")] [.text "Alpha link"]

/-- The listing item of the first results page. -/
def itemAlpha : Node :=
  .elem "div" [("role", "listitem")] [
    .elem "h2" [] [.text "Alpha"],
    .elem "img" [("src", "a1.jpg")] [],
    anchorAlpha]

/-- The next-page anchor of the first results page. -/
def nextAnchor : Node :=
  .elem "a" [("class", "s-pagination-next"), ("href", "/s?k=laptop&page=2")]
    [.text "Next"]

/-- First results page for keyword `laptop`: one product and a next-page
link. -/
def page1 : Node := .elem "[document]" [] [itemAlpha, nextAnchor]

/-- Second results page: a different product and no next-page link. -/
def page2 : Node :=
  .elem "[document]" [] [
    .elem "div" [("role", "listitem")] [
      .elem "h2" [] [.text "Beta"],
      .elem "img" [("src", "b1.jpg")] [],
      .elem "a" [("href", "/dp/2")] [.text "Beta link"]]]

/-- The record extracted from `page1`. -/
def recAlpha : Record :=
  [("Title", some "Alpha"), ("Image", some "a1.jpg"),
   ("Link", some "https://www.amazon.com/dp/1")]

/-- The record extraction of `page2` would produce. -/
def recBeta : Record :=
  [("Title", some "Beta"), ("Image", some "b1.jpg"),
   ("Link", some "https://www.amazon.com/dp/2")]

/-- The search URL for keyword `laptop`. -/
def searchUrlLaptop : String := "https://www.amazon.com/s?k=laptop"

/-- The next-page URL found on `page1`. -/
def nextUrlLaptop : String := "https://www.amazon.com/s?k=laptop&page=2"

/-- A healthy two-page world for keyword `laptop`. -/
def envTwoPages : Env :=
  { web := [(searchUrlLaptop, .loads (.html page1)),
            (nextUrlLaptop, .loads (.html page2))],
    deadSession := false }

/-- A fresh driver showing an empty page. -/
def d0 : DriverState := { current := .html emptyDoc }

/-- A page left over from an earlier crawl, with one product and no
next-page link. -/
def stalePage : Node :=
  .elem "[document]" [] [
    .elem "div" [("role", "listitem")] [
      .elem "h2" [] [.text "Stale"],
      .elem "img" [("src", "s1.jpg")] [],
      .elem "a" [("href", "/dp/9")] [.text "Stale link"]]]

/-- The record extracted from `stalePage`. -/
def recStale : Record :=
  [("Title", some "Stale"), ("Image", some "s1.jpg"),
   ("Link", some "https://www.amazon.com/dp/9")]

/-- A world where every navigation times out (no URL is stubbed) with a live
session: initial `driver.get` raises `TimeoutException`. -/
def envAllTimeout : Env := { web := [], deadSession := false }

/-- A driver still showing `stalePage` from a previous crawl. -/
def dStale : DriverState := { current := .html stalePage }

/-- A world whose driver session is dead: `page_source` raises. -/
def envDead : Env := { web := [], deadSession := true }

/-- A listing item whose `img` has no `src` and whose `a` has no `href`. -/
def itemNoAttrs : Node :=
  .elem "div" [("role", "listitem")] [
    .elem "h2" [] [.text "Item"],
    .elem "img" [] [],
    .elem "a" [] [.text "x"]]

/-- A document holding just `itemNoAttrs`. -/
def docNoAttrs : Node := .elem "[document]" [] [itemNoAttrs]

/-! ## Claims -/

/-- C1, counterexample.  In a world where the first page of keyword `laptop`
carries a next-page link, `scrape_all_pages` with `max_pages = 1` still
issues a `driver.get` to the second page's URL: the navigation trace holds
two distinct navigations, refuting both "never invokes navigation to a
second page" and "navigation happens only when
`current_page_index + 1 < max_pages`" (here `0 + 1 < 1` fails, yet the
second navigation occurs). -/
theorem c1_counterexample :
    (scrape_all_pages envTwoPages d0 "laptop" 1).1
        = [Event.get searchUrlLaptop, Event.get nextUrlLaptop] ∧
      searchUrlLaptop ≠ nextUrlLaptop ∧ ¬ (0 + 1 < 1) :=
  ⟨rfl, by decide, by decide⟩

/-- C1, amended.  Navigation to a further page happens exactly when the
crawl loop's body runs — the soup is present and the page index is below
`max_pages`, i.e. the remaining fuel `max_pages - page` is positive — and
the Pagination Resolver finds a next URL; the `+ 1` of the claim's guard is
not in the code.  In particular, with `max_pages = 1` and a next-page link
on page 1, exactly one navigation to the second page is issued, but no
records are extracted from it. -/
theorem c1_amended :
    (∀ (env : Env) (es soup : Option Node) (d : DriverState)
        (fuel : Nat) (results : List Record) (u : String),
      (crawl_loop env es soup d fuel results).1.head? = some (Event.get u) ↔
        0 < fuel ∧ soup.isSome = true ∧ pagination soup amazonBase = some u) ∧
      scrape_all_pages envTwoPages d0 "laptop" 1
        = ([Event.get searchUrlLaptop, Event.get nextUrlLaptop], .ok [recAlpha]) := by
  refine ⟨?_, rfl⟩
  intro env es soup d fuel results u
  cases fuel with
  | zero => simp [crawl_loop]
  | succ fuel' =>
    cases soup with
    | none => simp [crawl_loop]
    | some s =>
      cases hp : pagination (some s) amazonBase with
      | none => simp [crawl_loop, hp]
      | some u' =>
        simp only [crawl_loop, hp]
        cases hdg : driver_get env d u' with
        | error e => simp [hdg]
        | ok d' =>
          cases hps : page_source env d' with
          | error e => simp [hdg, hps]
          | ok resp =>
            cases hsm : soup_maker resp with
            | error e => simp [hdg, hps, hsm]
            | ok soup' => simp [hdg, hps, hsm]

/-- C2, code bug.  In the two-page world, the crawl follows the next-page
link but appends the first page's record twice and never the second page's:
the `ProductExtractor` is constructed once before the loop and its captured
soup is never updated, so iteration 2 re-extracts page 1's snapshot even
though extraction of page 2 would have produced `recBeta`.  This contradicts
the claim that iteration `k` extracts from the page loaded on iteration
`k`. -/
theorem c2_code_bug_eval :
    scrape_all_pages envTwoPages d0 "laptop" 5
        = ([Event.get searchUrlLaptop, Event.get nextUrlLaptop],
            .ok [recAlpha, recAlpha]) ∧
      ProductExtractor.extract (some page2) amazonBase = [recBeta] ∧
      recBeta ≠ recAlpha :=
  ⟨rfl, by decide, by decide⟩

/-- C3, code bug.  `soup_maker` on an input whose parse raises `TypeError`
(for example the non-string `None`) lets the exception escape instead of
returning `None`: the handler `except (FeatureNotFound or TypeError)`
evaluates `FeatureNotFound or TypeError` to `FeatureNotFound` alone, so only
`FeatureNotFound` is converted to the `None` result. -/
theorem c3_typeerror_escapes :
    soup_maker (Markup.notMarkup .typeError) = .error .typeError ∧
      soup_maker (Markup.notMarkup .featureNotFound) = .ok none ∧
      caught_by_soup_maker .typeError = false :=
  ⟨rfl, rfl, rfl⟩

/-- C4, counterexample.  With a live session whose every navigation times
out and a driver still showing a stale page from a previous crawl,
`scrape_all_pages` returns a non-empty record list extracted from the stale
content: `load_and_scroll` catches the `TimeoutException` and
`scrape_search_results` then returns the stale `page_source`, so the crawl
is not aborted and the result is not empty. -/
theorem c4_counterexample :
    scrape_all_pages envAllTimeout dStale "laptop" 5
        = ([Event.get searchUrlLaptop], .ok [recStale]) ∧
      [recStale] ≠ ([] : List Record) :=
  ⟨rfl, by decide⟩

/-- C4, amended.  A navigation failure alone does not abort the crawl: the
crawl proceeds on the driver's current page source and may extract records
from stale content (see the counterexample).  The crawl does yield an empty
record sequence when reading `page_source` itself raises (dead session):
`scrape_search_results`'s generic handler then returns `""`, whose empty
soup holds no listing items and no next-page link. -/
theorem c4_amended (env : Env) (d : DriverState) (keyword : String)
    (max_pages : Nat) (h : env.deadSession = true) :
    (scrape_all_pages env d keyword max_pages).2 = .ok [] := by
  have hext : ProductExtractor.extract (some emptyDoc) amazonBase = [] := rfl
  have hpag : pagination (some emptyDoc) amazonBase = none := rfl
  cases max_pages with
  | zero =>
    simp [scrape_all_pages, scrape_search_results, page_source, h, soup_maker,
      crawl_loop]
  | succ m =>
    simp [scrape_all_pages, scrape_search_results, page_source, h, soup_maker,
      crawl_loop, hext, hpag]

/-- C4, witness for the amended theorem: a dead-session world yields an
empty record sequence. -/
theorem c4_witness :
    envDead.deadSession = true ∧
      (scrape_all_pages envDead dStale "laptop" 5).2 = .ok [] :=
  ⟨rfl, c4_amended envDead dStale "laptop" 5 rfl⟩

/-- C5.  Against an endpoint answering `503` on every request,
`post_with_retry` with `max_retries = 3` performs exactly 3 send attempts
and returns `False`; the model's totality reflects that every request
exception is caught inside the loop, so no exception escapes. -/
theorem c5_always_503 (url : String) (data : List Record)
    (responses : Nat → PostOutcome) (delay : Nat) (backoff : Bool)
    (h : ∀ a, responses a = .status 503) :
    (post_with_retry url data responses 3 delay backoff).1 = false ∧
      (post_with_retry url data responses 3 delay backoff).2.1 = 3 := by
  constructor <;> simp [post_with_retry, post_attempts, h, attempt_succeeds]

/-- An endpoint answering `503` on every attempt. -/
def const503 : Nat → PostOutcome := fun _ => .status 503

/-- C5, witness: the always-503 endpoint at `max_retries = 3`. -/
theorem c5_witness :
    (∀ a, const503 a = .status 503) ∧
      (post_with_retry "http://localhost/api" [] const503 3 2 false).1 = false ∧
      (post_with_retry "http://localhost/api" [] const503 3 2 false).2.1 = 3 :=
  ⟨fun _ => rfl,
    c5_always_503 "http://localhost/api" [] const503 2 false (fun _ => rfl)⟩

/-- C6.  With `backoff = true` and `delay = 2`, a run in which every attempt
fails sleeps 4 seconds before attempt 2, 8 seconds before attempt 3, and —
because the doubling-then-sleep also runs after the final attempt — a
further 16 seconds after attempt 3. -/
theorem c6_backoff_waits (url : String) (data : List Record)
    (responses : Nat → PostOutcome)
    (h : ∀ a, attempt_succeeds (responses a) = false) :
    post_with_retry url data responses 3 2 true = (false, 3, [4, 8, 16]) := by
  simp [post_with_retry, post_attempts, h]

/-- An endpoint timing out on every attempt. -/
def alwaysTimeoutResp : Nat → PostOutcome := fun _ => .timeoutErr

/-- C6, witness: the always-failing endpoint with backoff from 2 sleeps
4, 8 and 16 seconds. -/
theorem c6_witness :
    (∀ a, attempt_succeeds (alwaysTimeoutResp a) = false) ∧
      post_with_retry "http://localhost/api" [] alwaysTimeoutResp 3 2 true
        = (false, 3, [4, 8, 16]) :=
  ⟨fun _ => rfl,
    c6_backoff_waits "http://localhost/api" [] alwaysTimeoutResp (fun _ => rfl)⟩

/-- C7.  Against an endpoint failing on attempt 1 and answering `200` or
`201` on attempt 2, `post_with_retry` returns `True` after exactly 2 send
attempts, with exactly one sleep (after the failed first attempt): success
stops the loop immediately with no further sends and no further waiting. -/
theorem c7_success_on_second (url : String) (data : List Record)
    (responses : Nat → PostOutcome) (delay : Nat) (backoff : Bool)
    (h1 : attempt_succeeds (responses 1) = false)
    (h2 : responses 2 = .status 200 ∨ responses 2 = .status 201) :
    post_with_retry url data responses 3 delay backoff
      = (true, 2, [if backoff then delay * 2 else delay]) := by
  have h200 : attempt_succeeds (PostOutcome.status 200) = true := rfl
  have h201 : attempt_succeeds (PostOutcome.status 201) = true := rfl
  rcases h2 with h2 | h2 <;>
    simp [post_with_retry, post_attempts, h1, h2, h200, h201]

/-- An endpoint failing once, then answering `201`. -/
def failThen201 : Nat → PostOutcome :=
  fun a => if a = 1 then .requestErr else .status 201

/-- C7, witness: failure then `201` returns `True` after 2 attempts with a
single 2-second sleep. -/
theorem c7_witness :
    attempt_succeeds (failThen201 1) = false ∧
      (failThen201 2 = .status 200 ∨ failThen201 2 = .status 201) ∧
      post_with_retry "http://localhost/api" [] failThen201 3 2 false
        = (true, 2, [2]) :=
  ⟨rfl, Or.inr rfl,
    c7_success_on_second "http://localhost/api" [] failThen201 2 false rfl
      (Or.inr rfl)⟩

/-- C8.  URL resolution is asymmetric: an item's non-empty anchor href is
prefixed with the base URL by plain string concatenation, while the
next-page href is resolved with `urljoin`; the two policies genuinely
differ (witnessed inside the statement). -/
theorem c8_url_resolution (base_url : String) (item doc anchor nextTag : Node)
    (href nextHref : String)
    (hfind : item.find "a" = some anchor)
    (hhref : anchor.getAttr "href" = some href) (hne : ¬ href = "")
    (hnext : doc.findWithClass "a" "s-pagination-next" = some nextTag)
    (hnhref : nextTag.getAttr "href" = some nextHref) (hnne : ¬ nextHref = "") :
    extract_field base_url item "link" = some (base_url ++ href) ∧
      pagination (some doc) base_url = some (urljoin base_url nextHref) ∧
      ∃ b u, b ++ u ≠ urljoin b u := by
  refine ⟨?_, ?_, ⟨"https://www.amazon.com/s", "/x", by decide⟩⟩
  · simp [extract_field, extract_text, hfind, hhref, strTruthy, beq_iff_eq, hne]
  · simp [pagination, hnext, hnhref, hnne]

/-- C8, witness: the concrete first results page, whose product link is
concatenated and whose next-page href is url-joined. -/
theorem c8_witness :
    itemAlpha.find "a" = some anchorAlpha ∧
      anchorAlpha.getAttr "href" = some "/dp/1" ∧
      page1.findWithClass "a" "s-pagination-next" = some nextAnchor ∧
      nextAnchor.getAttr "href" = some "/s?k=laptop&page=2" ∧
      (extract_field amazonBase itemAlpha "link"
          = some (amazonBase ++ "/dp/1") ∧
        pagination (some page1) amazonBase
          = some (urljoin amazonBase "/s?k=laptop&page=2") ∧
        ∃ b u, b ++ u ≠ urljoin b u) :=
  ⟨rfl, rfl, rfl, rfl,
    c8_url_resolution amazonBase itemAlpha page1 anchorAlpha nextAnchor
      "/dp/1" "/s?k=laptop&page=2" rfl rfl (by decide) rfl rfl (by decide)⟩

/-- C9.  Dispatching an empty record sequence is a no-op apart from the
warning signal: for every sink configuration the effect trace is exactly the
warning, so no file write and no publish call occurs. -/
theorem c9_empty_dispatch (file_name post_api_url : Option String)
    (table_name : String) :
    save_as [] file_name post_api_url table_name
      = [SinkEffect.warnEmptyItems] := by
  simp [save_as]

/-- C10.  An item whose `img` exists but has no `src`, or whose `a` exists
but has no `href`, yields `None` (not `""`) for the Image/Link field — the
base URL is not prefixed in the link case since `None` is falsy — so
`extract` produces records containing non-string values, as the concrete
document shows. -/
theorem c10_missing_attrs (base_url : String) (item imgTag aTag : Node)
    (himg : item.find "img" = some imgTag)
    (hsrc : imgTag.getAttr "src" = none)
    (ha : item.find "a" = some aTag)
    (hhref : aTag.getAttr "href" = none) :
    extract_field base_url item "image" = none ∧
      extract_field base_url item "link" = none ∧
      ProductExtractor.extract (some docNoAttrs) amazonBase
        = [[("Title", some "Item"), ("Image", none), ("Link", none)]] := by
  refine ⟨?_, ?_, rfl⟩
  · simp [extract_field, extract_text, himg, hsrc]
  · simp [extract_field, extract_text, ha, hhref, strTruthy]

/-- C10, witness: the concrete attribute-less item. -/
theorem c10_witness :
    itemNoAttrs.find "img" = some (.elem "img" [] []) ∧
      (Node.elem "img" [] []).getAttr "src" = none ∧
      itemNoAttrs.find "a" = some (.elem "a" [] [.text "x"]) ∧
      (Node.elem "a" [] [.text "x"]).getAttr "href" = none ∧
      (extract_field amazonBase itemNoAttrs "image" = none ∧
        extract_field amazonBase itemNoAttrs "link" = none ∧
        ProductExtractor.extract (some docNoAttrs) amazonBase
          = [[("Title", some "Item"), ("Image", none), ("Link", none)]]) :=
  ⟨rfl, rfl, rfl, rfl,
    c10_missing_attrs amazonBase itemNoAttrs (.elem "img" [] [])
      (.elem "a" [] [.text "x"]) rfl rfl rfl rfl⟩

end IndeedScraper
